import Mathlib

/-!
Verification of the stream live-input client (`stream_live_inputs.go`).

The module is a thin typed client: each operation validates identifiers,
builds a URI, invokes the shared request executor, and decodes the JSON
response envelope.  The executor, the URI query builder and the JSON codec
are external collaborators of the surrounding SDK, so they are modelled as
abstract fields of the `API` structure and the theorems quantify over them.
Go slices and maps can be `nil`, which is distinct from being empty, so
nil-able slices and maps are embedded as `Option (List _)`.  Each operation
additionally returns the list of executor calls it performed, so that
"performs no network call" is directly statable.
-/

namespace Cloudflare

/-- Go `interface{}` values stored in `meta` maps, i.e. decoded JSON values.
Go represents JSON numbers as `float64`; no property here inspects numeric
values, so integral numbers suffice for the model. -/
inductive JsonValue : Type where
  | null : JsonValue
  | bool (b : Bool) : JsonValue
  | number (n : Int) : JsonValue
  | string (s : String) : JsonValue
  | array (elems : List JsonValue) : JsonValue
  | object (fields : List (String × JsonValue)) : JsonValue

/-- Go `time.Time`, opaque to this module: only carried around. -/
structure GoTime : Type where
  unixNano : Int
deriving DecidableEq

/-- Raw response bodies (`[]byte`), as a list of byte values. -/
abbrev Bytes : Type := List Nat

/-- Go `error` values as seen by this module.  `errMissingAccountID` and
`errMissingLiveInputID` are the two sentinel errors compared by identity;
`other` covers every error value produced by the executor or the JSON
codec (opaque transport, HTTP and decode errors). -/
inductive GoError : Type where
  | errMissingAccountID : GoError
  | errMissingLiveInputID : GoError
  | other (msg : String) : GoError
deriving DecidableEq

/-- The HTTP methods used by this module (`net/http` constants). -/
inductive HTTPMethod : Type where
  | get : HTTPMethod
  | post : HTTPMethod
  | put : HTTPMethod
  | delete : HTTPMethod
deriving DecidableEq

/-- `StreamLiveInputRTMPS` represents the live input values for RTMPS. -/
structure StreamLiveInputRTMPS : Type where
  URL : String
  StreamKey : String

/-- `StreamLiveInputSRT` represents the live input values for SRT. -/
structure StreamLiveInputSRT : Type where
  URL : String
  StreamID : String
  Passphrase : String

/-- `StreamLiveInputWebRTC` represents the live input values for Web-RTC. -/
structure StreamLiveInputWebRTC : Type where
  URL : String

/-- `StreamLiveInputStatus` represents the streaming status for live input. -/
structure StreamLiveInputStatus : Type where
  Reason : String
  State : String
  StatusEnteredAt : Option GoTime
  StatusLastSeen : Option GoTime

/-- `StreamLiveInputStatuses` represents the streaming statuses for live
input.  `History` is a nil-able Go slice. -/
structure StreamLiveInputStatuses : Type where
  Current : StreamLiveInputStatus
  History : Option (List StreamLiveInputStatus)

/-- `StreamLiveInputRecording` represents the recording configuration for
the live input value.  `AllowedOrigins` is a nil-able Go slice. -/
structure StreamLiveInputRecording : Type where
  Mode : String
  RequireSignedURLs : Bool
  AllowedOrigins : Option (List String)
  TimeoutSeconds : Int

/-- `StreamLiveInputListItem` represents a stream live input for the list
result.  `Meta` is a nil-able Go map. -/
structure StreamLiveInputListItem : Type where
  UID : String
  Created : Option GoTime
  Modified : Option GoTime
  Meta : Option (List (String × JsonValue))
  DeleteRecordingAfterDays : Int

/-- `StreamLiveInput` represents a stream live input. -/
structure StreamLiveInput : Type where
  UID : String
  RTMPS : StreamLiveInputRTMPS
  RTMPSPlayback : StreamLiveInputRTMPS
  SRT : StreamLiveInputSRT
  SRTPlayback : StreamLiveInputRTMPS
  WebRTC : StreamLiveInputWebRTC
  WebRTCPlayback : StreamLiveInputWebRTC
  Created : Option GoTime
  Modified : Option GoTime
  Meta : Option (List (String × JsonValue))
  DefaultCreator : String
  Status : Option StreamLiveInputStatuses
  Recording : StreamLiveInputRecording
  DeleteRecordingAfterDays : Int
  PreferLowLatency : Bool

/-- `ListStreamLiveInputsParameters` represents parameters used when listing
stream live inputs. -/
structure ListStreamLiveInputsParameters : Type where
  AccountID : String
  IncludeCounts : Bool

/-- `CreateStreamLiveInputParameters` represents parameters used when
creating stream live input. -/
structure CreateStreamLiveInputParameters : Type where
  AccountID : String
  DefaultCreator : String
  DeleteRecordingAfterDays : Int
  Meta : Option (List (String × JsonValue))
  Recording : StreamLiveInputRecording
  PreferLowLatency : Bool

/-- `StreamLiveInputParameters` represents parameters used for stream live
input. -/
structure StreamLiveInputParameters : Type where
  AccountID : String
  LiveInputID : String

/-- `UpdateStreamLiveInputParameters` represents parameters used when
updating stream live input. -/
structure UpdateStreamLiveInputParameters : Type where
  AccountID : String
  LiveInputID : String
  DefaultCreator : String
  DeleteRecordingAfterDays : Int
  Meta : Option (List (String × JsonValue))
  Recording : StreamLiveInputRecording
  PreferLowLatency : Bool

/-- Modelled from the spec: the generic envelope metadata (success flag,
errors, messages) of the shared `Response` type, which is declared in the
SDK outside this file. -/
structure Response : Type where
  Success : Bool
  Errors : Option (List String)
  Messages : Option (List String)

/-- Modelled from the spec: a video entity returned by the list-videos
operation.  `StreamVideo` is declared in the SDK outside this file; the
spec only says the operation returns a sequence of videos, so the model
carries the identifier only. -/
structure StreamVideo : Type where
  UID : String

/-- `StreamLiveInputsListResponse` represents an API response of stream
live inputs.  `Result` is a nil-able Go slice. -/
structure StreamLiveInputsListResponse : Type where
  response : Response
  Result : Option (List StreamLiveInputListItem)

/-- `StreamLiveInputResponse` represents an API response of stream live
input. -/
structure StreamLiveInputResponse : Type where
  response : Response
  Result : StreamLiveInput

/-- Modelled from the spec: the shared list-of-videos envelope
(`StreamListResponse`), declared in the SDK outside this file: envelope
metadata plus a `result` array of videos.  `Result` is a nil-able Go
slice. -/
structure StreamListResponse : Type where
  response : Response
  Result : Option (List StreamVideo)

/-- The body value handed to the request executor (`interface{}` in Go):
either absent (`nil`) or one of the parameter structs this module
passes. -/
inductive RequestBody : Type where
  | createParams (p : CreateStreamLiveInputParameters) : RequestBody
  | updateParams (p : UpdateStreamLiveInputParameters) : RequestBody
  | liveInputParams (p : StreamLiveInputParameters) : RequestBody

/-- One invocation of the request executor: the HTTP method, the URI and
the (possibly absent) body value. -/
structure RequestCall : Type where
  method : HTTPMethod
  uri : String
  body : Option RequestBody

/-- The client together with its external collaborators: the shared request
executor `makeRequestContext`, the query-string builder `buildURI`, and the
JSON codec (`json.Unmarshal` specialised to the three response envelope
types this module decodes into).  All of them live in the SDK outside this
file and are abstract here; theorems quantify over them. -/
structure API : Type where
  makeRequestContext : HTTPMethod → String → Option RequestBody → Except GoError Bytes
  buildURI : String → ListStreamLiveInputsParameters → String
  unmarshalStreamLiveInputsListResponse : Bytes → Except GoError StreamLiveInputsListResponse
  unmarshalStreamLiveInputResponse : Bytes → Except GoError StreamLiveInputResponse
  unmarshalStreamListResponse : Bytes → Except GoError StreamListResponse

/-- Go zero value `StreamLiveInputRTMPS{}`. -/
def StreamLiveInputRTMPS.zero : StreamLiveInputRTMPS where
  URL := ""
  StreamKey := ""

/-- Go zero value `StreamLiveInputSRT{}`. -/
def StreamLiveInputSRT.zero : StreamLiveInputSRT where
  URL := ""
  StreamID := ""
  Passphrase := ""

/-- Go zero value `StreamLiveInputWebRTC{}`. -/
def StreamLiveInputWebRTC.zero : StreamLiveInputWebRTC where
  URL := ""

/-- Go zero value `StreamLiveInputRecording{}`. -/
def StreamLiveInputRecording.zero : StreamLiveInputRecording where
  Mode := ""
  RequireSignedURLs := false
  AllowedOrigins := none
  TimeoutSeconds := 0

/-- Go zero value `StreamLiveInput{}` (the value returned alongside every
error of the single-resource operations). -/
def StreamLiveInput.zero : StreamLiveInput where
  UID := ""
  RTMPS := StreamLiveInputRTMPS.zero
  RTMPSPlayback := StreamLiveInputRTMPS.zero
  SRT := StreamLiveInputSRT.zero
  SRTPlayback := StreamLiveInputRTMPS.zero
  WebRTC := StreamLiveInputWebRTC.zero
  WebRTCPlayback := StreamLiveInputWebRTC.zero
  Created := none
  Modified := none
  Meta := none
  DefaultCreator := ""
  Status := none
  Recording := StreamLiveInputRecording.zero
  DeleteRecordingAfterDays := 0
  PreferLowLatency := false

/-- `ListStreamLiveInputs` lists live inputs.  Mirrors the Go function:
empty `AccountID` returns `nil, ErrMissingAccountID` before any request
(note: the `nil` slice, not the empty slice); otherwise one GET request on
the URI built by `buildURI`; executor or decode failure returns the empty
slice and the error; success returns the envelope's `Result` slice.  The
second component is the list of executor calls performed. -/
def API.ListStreamLiveInputs (api : API) (options : ListStreamLiveInputsParameters) :
    (Option (List StreamLiveInputListItem) × Option GoError) × List RequestCall :=
  if options.AccountID = "" then
    ((none, some GoError.errMissingAccountID), [])
  else
    let uri := api.buildURI ("/accounts/" ++ options.AccountID ++ "/stream/live_inputs") options
    let outcome :=
      match api.makeRequestContext HTTPMethod.get uri none with
      | Except.error err => (some ([] : List StreamLiveInputListItem), some err)
      | Except.ok res =>
        match api.unmarshalStreamLiveInputsListResponse res with
        | Except.error err => (some ([] : List StreamLiveInputListItem), some err)
        | Except.ok streamListResponse => (streamListResponse.Result, none)
    (outcome, [{ method := HTTPMethod.get, uri := uri, body := none }])

/-- `CreateStreamLiveInput` creates a stream live input: empty `AccountID`
returns the zero struct and `ErrMissingAccountID` before any request;
otherwise one POST request with the parameter struct as body; executor or
decode failure returns the zero struct and the error; success returns the
envelope's `Result`. -/
def API.CreateStreamLiveInput (api : API) (options : CreateStreamLiveInputParameters) :
    (StreamLiveInput × Option GoError) × List RequestCall :=
  if options.AccountID = "" then
    ((StreamLiveInput.zero, some GoError.errMissingAccountID), [])
  else
    let uri := "/accounts/" ++ options.AccountID ++ "/stream/live_inputs"
    let outcome :=
      match api.makeRequestContext HTTPMethod.post uri (some (RequestBody.createParams options)) with
      | Except.error err => (StreamLiveInput.zero, some err)
      | Except.ok res =>
        match api.unmarshalStreamLiveInputResponse res with
        | Except.error err => (StreamLiveInput.zero, some err)
        | Except.ok streamListResponse => (streamListResponse.Result, none)
    (outcome, [{ method := HTTPMethod.post, uri := uri,
                 body := some (RequestBody.createParams options) }])

/-- `DeleteStreamLiveInput` deletes a stream live input: empty `AccountID`
returns `ErrMissingAccountID`, then empty `LiveInputID` returns
`ErrMissingLiveInputID`, both before any request; otherwise one DELETE
request with the parameter struct as body, the response body is never
decoded, and the executor's error (if any) is returned. -/
def API.DeleteStreamLiveInput (api : API) (options : StreamLiveInputParameters) :
    Option GoError × List RequestCall :=
  if options.AccountID = "" then
    (some GoError.errMissingAccountID, [])
  else if options.LiveInputID = "" then
    (some GoError.errMissingLiveInputID, [])
  else
    let uri := "/accounts/" ++ options.AccountID ++ "/stream/live_inputs/" ++ options.LiveInputID
    let outcome :=
      match api.makeRequestContext HTTPMethod.delete uri (some (RequestBody.liveInputParams options)) with
      | Except.error err => some err
      | Except.ok _ => none
    (outcome, [{ method := HTTPMethod.delete, uri := uri,
                 body := some (RequestBody.liveInputParams options) }])

/-- `GetStreamLiveInput` fetches a stream live input: identifier checks as
in delete; otherwise one request issued with method POST (as in the source)
and the parameter struct as body; executor or decode failure returns the
zero struct and the error; success returns the envelope's `Result`. -/
def API.GetStreamLiveInput (api : API) (options : StreamLiveInputParameters) :
    (StreamLiveInput × Option GoError) × List RequestCall :=
  if options.AccountID = "" then
    ((StreamLiveInput.zero, some GoError.errMissingAccountID), [])
  else if options.LiveInputID = "" then
    ((StreamLiveInput.zero, some GoError.errMissingLiveInputID), [])
  else
    let uri := "/accounts/" ++ options.AccountID ++ "/stream/live_inputs/" ++ options.LiveInputID
    let outcome :=
      match api.makeRequestContext HTTPMethod.post uri (some (RequestBody.liveInputParams options)) with
      | Except.error err => (StreamLiveInput.zero, some err)
      | Except.ok res =>
        match api.unmarshalStreamLiveInputResponse res with
        | Except.error err => (StreamLiveInput.zero, some err)
        | Except.ok streamListResponse => (streamListResponse.Result, none)
    (outcome, [{ method := HTTPMethod.post, uri := uri,
                 body := some (RequestBody.liveInputParams options) }])

/-- `UpdateStreamLiveInput` updates a stream live input: identifier checks
as in delete; otherwise one PUT request with the parameter struct as body;
executor or decode failure returns the zero struct and the error; success
returns the envelope's `Result`. -/
def API.UpdateStreamLiveInput (api : API) (options : UpdateStreamLiveInputParameters) :
    (StreamLiveInput × Option GoError) × List RequestCall :=
  if options.AccountID = "" then
    ((StreamLiveInput.zero, some GoError.errMissingAccountID), [])
  else if options.LiveInputID = "" then
    ((StreamLiveInput.zero, some GoError.errMissingLiveInputID), [])
  else
    let uri := "/accounts/" ++ options.AccountID ++ "/stream/live_inputs/" ++ options.LiveInputID
    let outcome :=
      match api.makeRequestContext HTTPMethod.put uri (some (RequestBody.updateParams options)) with
      | Except.error err => (StreamLiveInput.zero, some err)
      | Except.ok res =>
        match api.unmarshalStreamLiveInputResponse res with
        | Except.error err => (StreamLiveInput.zero, some err)
        | Except.ok streamListResponse => (streamListResponse.Result, none)
    (outcome, [{ method := HTTPMethod.put, uri := uri,
                 body := some (RequestBody.updateParams options) }])

/-- `ListStreamLiveInputVideos` lists videos associated with a live input:
identifier checks as in delete but returning the empty slice alongside the
error; otherwise one request issued with method POST (as in the source)
and the parameter struct as body; executor or decode failure returns the
empty slice and the error; success returns the envelope's `Result`
slice. -/
def API.ListStreamLiveInputVideos (api : API) (options : StreamLiveInputParameters) :
    (Option (List StreamVideo) × Option GoError) × List RequestCall :=
  if options.AccountID = "" then
    ((some ([] : List StreamVideo), some GoError.errMissingAccountID), [])
  else if options.LiveInputID = "" then
    ((some ([] : List StreamVideo), some GoError.errMissingLiveInputID), [])
  else
    let uri := "/accounts/" ++ options.AccountID ++ "/stream/live_inputs/" ++
      options.LiveInputID ++ "/videos"
    let outcome :=
      match api.makeRequestContext HTTPMethod.post uri (some (RequestBody.liveInputParams options)) with
      | Except.error err => (some ([] : List StreamVideo), some err)
      | Except.ok res =>
        match api.unmarshalStreamListResponse res with
        | Except.error err => (some ([] : List StreamVideo), some err)
        | Except.ok streamListResponse => (streamListResponse.Result, none)
    (outcome, [{ method := HTTPMethod.post, uri := uri,
                 body := some (RequestBody.liveInputParams options) }])

/-! Concrete fixtures used to instantiate the theorems below. -/

/-- A decode error as produced by the JSON codec on malformed input. -/
def decodeErr : GoError := GoError.other ("unexpected end of JSON input")

/-- A successful envelope header. -/
def okResponse : Response where
  Success := true
  Errors := none
  Messages := none

/-- A concrete collaborator assignment whose executor always succeeds with
a malformed body and whose codec therefore always fails to decode. -/
def failDecodeAPI : API where
  makeRequestContext := fun _ _ _ => Except.ok [1, 2, 3]
  buildURI := fun path _ => path
  unmarshalStreamLiveInputsListResponse := fun _ => Except.error decodeErr
  unmarshalStreamLiveInputResponse := fun _ => Except.error decodeErr
  unmarshalStreamListResponse := fun _ => Except.error decodeErr

/-- A concrete collaborator assignment whose executor succeeds and whose
codec decodes every body into a successful envelope with an empty (but
present) `result` array. -/
def okListAPI : API where
  makeRequestContext := fun _ _ _ => Except.ok []
  buildURI := fun path _ => path
  unmarshalStreamLiveInputsListResponse := fun _ =>
    Except.ok { response := okResponse, Result := some [] }
  unmarshalStreamLiveInputResponse := fun _ =>
    Except.ok { response := okResponse, Result := StreamLiveInput.zero }
  unmarshalStreamListResponse := fun _ =>
    Except.ok { response := okResponse, Result := some [] }

/-- List parameters with an empty account id. -/
def pListEmpty : ListStreamLiveInputsParameters where
  AccountID := ""
  IncludeCounts := false

/-- List parameters with account id `acct1`. -/
def pListAcct : ListStreamLiveInputsParameters where
  AccountID := "acct1"
  IncludeCounts := false

/-- Create parameters with an empty account id. -/
def pCreateEmpty : CreateStreamLiveInputParameters where
  AccountID := ""
  DefaultCreator := ""
  DeleteRecordingAfterDays := 0
  Meta := none
  Recording := StreamLiveInputRecording.zero
  PreferLowLatency := false

/-- Create parameters with account id `acct1`. -/
def pCreateAcct : CreateStreamLiveInputParameters where
  AccountID := "acct1"
  DefaultCreator := ""
  DeleteRecordingAfterDays := 0
  Meta := none
  Recording := StreamLiveInputRecording.zero
  PreferLowLatency := false

/-- Resource parameters with an empty account id and live input `li1`. -/
def pResEmptyAcct : StreamLiveInputParameters where
  AccountID := ""
  LiveInputID := "li1"

/-- Resource parameters with account `acct1` and an empty live input id. -/
def pResEmptyLive : StreamLiveInputParameters where
  AccountID := "acct1"
  LiveInputID := ""

/-- Resource parameters with both identifiers empty. -/
def pResBothEmpty : StreamLiveInputParameters where
  AccountID := ""
  LiveInputID := ""

/-- Resource parameters with account `acct1` and live input `li1`. -/
def pRes : StreamLiveInputParameters where
  AccountID := "acct1"
  LiveInputID := "li1"

/-- Update parameters with an empty account id and live input `li1`. -/
def pUpdEmptyAcct : UpdateStreamLiveInputParameters where
  AccountID := ""
  LiveInputID := "li1"
  DefaultCreator := ""
  DeleteRecordingAfterDays := 0
  Meta := none
  Recording := StreamLiveInputRecording.zero
  PreferLowLatency := false

/-- Update parameters with account `acct1` and an empty live input id. -/
def pUpdEmptyLive : UpdateStreamLiveInputParameters where
  AccountID := "acct1"
  LiveInputID := ""
  DefaultCreator := ""
  DeleteRecordingAfterDays := 0
  Meta := none
  Recording := StreamLiveInputRecording.zero
  PreferLowLatency := false

/-- Update parameters with both identifiers empty. -/
def pUpdBothEmpty : UpdateStreamLiveInputParameters where
  AccountID := ""
  LiveInputID := ""
  DefaultCreator := ""
  DeleteRecordingAfterDays := 0
  Meta := none
  Recording := StreamLiveInputRecording.zero
  PreferLowLatency := false

/-- Update parameters with account `acct1` and live input `li1`. -/
def pUpd : UpdateStreamLiveInputParameters where
  AccountID := "acct1"
  LiveInputID := "li1"
  DefaultCreator := ""
  DeleteRecordingAfterDays := 0
  Meta := none
  Recording := StreamLiveInputRecording.zero
  PreferLowLatency := false

/-- C1: every one of the six operations, called with an empty account id,
returns the `ErrMissingAccountID` sentinel error and performs no executor
call (the call trace is empty). -/
theorem c1_emptyAccountID_sentinel_no_request (api : API)
    (pL : ListStreamLiveInputsParameters) (hL : pL.AccountID = "")
    (pC : CreateStreamLiveInputParameters) (hC : pC.AccountID = "")
    (pS : StreamLiveInputParameters) (hS : pS.AccountID = "")
    (pU : UpdateStreamLiveInputParameters) (hU : pU.AccountID = "") :
    api.ListStreamLiveInputs pL = ((none, some GoError.errMissingAccountID), [])
    ∧ api.CreateStreamLiveInput pC
      = ((StreamLiveInput.zero, some GoError.errMissingAccountID), [])
    ∧ api.GetStreamLiveInput pS
      = ((StreamLiveInput.zero, some GoError.errMissingAccountID), [])
    ∧ api.UpdateStreamLiveInput pU
      = ((StreamLiveInput.zero, some GoError.errMissingAccountID), [])
    ∧ api.DeleteStreamLiveInput pS = (some GoError.errMissingAccountID, [])
    ∧ api.ListStreamLiveInputVideos pS
      = ((some [], some GoError.errMissingAccountID), []) := by
  refine ⟨?_, ?_, ?_, ?_, ?_, ?_⟩ <;>
    simp [API.ListStreamLiveInputs, API.CreateStreamLiveInput, API.GetStreamLiveInput,
      API.UpdateStreamLiveInput, API.DeleteStreamLiveInput, API.ListStreamLiveInputVideos,
      hL, hC, hS, hU]

/-- Witness for C1 at concrete empty-account parameters. -/
theorem c1_witness :
    failDecodeAPI.ListStreamLiveInputs pListEmpty
      = ((none, some GoError.errMissingAccountID), [])
    ∧ failDecodeAPI.CreateStreamLiveInput pCreateEmpty
      = ((StreamLiveInput.zero, some GoError.errMissingAccountID), [])
    ∧ failDecodeAPI.GetStreamLiveInput pResEmptyAcct
      = ((StreamLiveInput.zero, some GoError.errMissingAccountID), [])
    ∧ failDecodeAPI.UpdateStreamLiveInput pUpdEmptyAcct
      = ((StreamLiveInput.zero, some GoError.errMissingAccountID), [])
    ∧ failDecodeAPI.DeleteStreamLiveInput pResEmptyAcct
      = (some GoError.errMissingAccountID, [])
    ∧ failDecodeAPI.ListStreamLiveInputVideos pResEmptyAcct
      = ((some [], some GoError.errMissingAccountID), []) :=
  c1_emptyAccountID_sentinel_no_request failDecodeAPI
    pListEmpty rfl pCreateEmpty rfl pResEmptyAcct rfl pUpdEmptyAcct rfl

/-- C2: every resource-scoped operation, called with a non-empty account id
but an empty live input id, returns the `ErrMissingLiveInputID` sentinel
error and performs no executor call. -/
theorem c2_emptyLiveInputID_sentinel_no_request (api : API)
    (pS : StreamLiveInputParameters) (hSa : pS.AccountID ≠ "") (hSl : pS.LiveInputID = "")
    (pU : UpdateStreamLiveInputParameters) (hUa : pU.AccountID ≠ "") (hUl : pU.LiveInputID = "") :
    api.GetStreamLiveInput pS
      = ((StreamLiveInput.zero, some GoError.errMissingLiveInputID), [])
    ∧ api.UpdateStreamLiveInput pU
      = ((StreamLiveInput.zero, some GoError.errMissingLiveInputID), [])
    ∧ api.DeleteStreamLiveInput pS = (some GoError.errMissingLiveInputID, [])
    ∧ api.ListStreamLiveInputVideos pS
      = ((some [], some GoError.errMissingLiveInputID), []) := by
  refine ⟨?_, ?_, ?_, ?_⟩ <;>
    simp [API.GetStreamLiveInput, API.UpdateStreamLiveInput, API.DeleteStreamLiveInput,
      API.ListStreamLiveInputVideos, hSa, hSl, hUa, hUl]

/-- Witness for C2 at concrete empty-live-input parameters. -/
theorem c2_witness :
    failDecodeAPI.GetStreamLiveInput pResEmptyLive
      = ((StreamLiveInput.zero, some GoError.errMissingLiveInputID), [])
    ∧ failDecodeAPI.UpdateStreamLiveInput pUpdEmptyLive
      = ((StreamLiveInput.zero, some GoError.errMissingLiveInputID), [])
    ∧ failDecodeAPI.DeleteStreamLiveInput pResEmptyLive
      = (some GoError.errMissingLiveInputID, [])
    ∧ failDecodeAPI.ListStreamLiveInputVideos pResEmptyLive
      = ((some [], some GoError.errMissingLiveInputID), []) :=
  c2_emptyLiveInputID_sentinel_no_request failDecodeAPI
    pResEmptyLive (by decide) rfl pUpdEmptyLive (by decide) rfl

/-- C9: when both identifiers are empty, the account-id check fires first:
every resource-scoped operation returns `ErrMissingAccountID`, not
`ErrMissingLiveInputID`. -/
theorem c9_accountID_check_precedence (api : API)
    (pS : StreamLiveInputParameters) (hSa : pS.AccountID = "") (hSl : pS.LiveInputID = "")
    (pU : UpdateStreamLiveInputParameters) (hUa : pU.AccountID = "") (hUl : pU.LiveInputID = "") :
    (api.GetStreamLiveInput pS).1.2 = some GoError.errMissingAccountID
    ∧ (api.UpdateStreamLiveInput pU).1.2 = some GoError.errMissingAccountID
    ∧ (api.DeleteStreamLiveInput pS).1 = some GoError.errMissingAccountID
    ∧ (api.ListStreamLiveInputVideos pS).1.2 = some GoError.errMissingAccountID := by
  refine ⟨?_, ?_, ?_, ?_⟩ <;>
    simp [API.GetStreamLiveInput, API.UpdateStreamLiveInput, API.DeleteStreamLiveInput,
      API.ListStreamLiveInputVideos, hSa, hSl, hUa, hUl]

/-- Witness for C9 at concrete both-empty parameters. -/
theorem c9_witness :
    (failDecodeAPI.GetStreamLiveInput pResBothEmpty).1.2 = some GoError.errMissingAccountID
    ∧ (failDecodeAPI.UpdateStreamLiveInput pUpdBothEmpty).1.2 = some GoError.errMissingAccountID
    ∧ (failDecodeAPI.DeleteStreamLiveInput pResBothEmpty).1 = some GoError.errMissingAccountID
    ∧ (failDecodeAPI.ListStreamLiveInputVideos pResBothEmpty).1.2
      = some GoError.errMissingAccountID :=
  c9_accountID_check_precedence failDecodeAPI pResBothEmpty rfl rfl pUpdBothEmpty rfl rfl

/-- C3 counterexample: `ListStreamLiveInputs` with an empty account id is
an error outcome (the precondition error), yet the returned sequence is the
nil slice `none`, not the empty sequence `some []` — refuting the claim
that every error outcome of the list-returning operations yields an empty
sequence rather than a null/absent value. -/
theorem c3_counterexample :
    (failDecodeAPI.ListStreamLiveInputs pListEmpty).1.2 = some GoError.errMissingAccountID
    ∧ (failDecodeAPI.ListStreamLiveInputs pListEmpty).1.1 = none
    ∧ (failDecodeAPI.ListStreamLiveInputs pListEmpty).1.1 ≠ some [] := by
  refine ⟨rfl, rfl, ?_⟩
  intro h
  simp [API.ListStreamLiveInputs, pListEmpty] at h

/-- C3 amended: on executor and decode errors both list-returning
operations yield the empty sequence; `ListStreamLiveInputVideos` also
yields the empty sequence on its precondition errors; but
`ListStreamLiveInputs` yields the nil (absent) sequence on its
precondition error.  Stated as: every call either succeeds, or returns the
empty sequence, or is the empty-account-id case of `ListStreamLiveInputs`
returning the nil sequence. -/
theorem c3_amended_list_error_results (api : API)
    (p : ListStreamLiveInputsParameters) (q : StreamLiveInputParameters) :
    ((api.ListStreamLiveInputs p).1.2 = none
      ∨ (api.ListStreamLiveInputs p).1.1 = some []
      ∨ (p.AccountID = "" ∧ (api.ListStreamLiveInputs p).1.1 = none
          ∧ (api.ListStreamLiveInputs p).1.2 = some GoError.errMissingAccountID))
    ∧ ((api.ListStreamLiveInputVideos q).1.2 = none
      ∨ (api.ListStreamLiveInputVideos q).1.1 = some []) := by
  constructor
  · by_cases h : p.AccountID = ""
    · exact Or.inr (Or.inr ⟨h, by simp [API.ListStreamLiveInputs, h],
        by simp [API.ListStreamLiveInputs, h]⟩)
    · simp only [API.ListStreamLiveInputs, h, if_false]
      cases hmk : api.makeRequestContext HTTPMethod.get
          (api.buildURI ("/accounts/" ++ p.AccountID ++ "/stream/live_inputs") p) none with
      | error e => exact Or.inr (Or.inl (by simp [hmk]))
      | ok res =>
        cases hdec : api.unmarshalStreamLiveInputsListResponse res with
        | error e => exact Or.inr (Or.inl (by simp [hmk, hdec]))
        | ok r => exact Or.inl (by simp [hmk, hdec])
  · by_cases h : q.AccountID = ""
    · exact Or.inr (by simp [API.ListStreamLiveInputVideos, h])
    · by_cases h2 : q.LiveInputID = ""
      · exact Or.inr (by simp [API.ListStreamLiveInputVideos, h, h2])
      · simp only [API.ListStreamLiveInputVideos, h, h2, if_false]
        cases hmk : api.makeRequestContext HTTPMethod.post
            ("/accounts/" ++ q.AccountID ++ "/stream/live_inputs/" ++
              q.LiveInputID ++ "/videos")
            (some (RequestBody.liveInputParams q)) with
        | error e => exact Or.inr (by simp [hmk])
        | ok res =>
          cases hdec : api.unmarshalStreamListResponse res with
          | error e => exact Or.inr (by simp [hmk, hdec])
          | ok r => exact Or.inl (by simp [hmk, hdec])

/-- C4: `GetStreamLiveInput` and `ListStreamLiveInputVideos`, on
well-formed identifiers, issue their single executor call with HTTP method
POST. -/
theorem c4_get_and_listVideos_use_post (api : API) (p : StreamLiveInputParameters)
    (ha : p.AccountID ≠ "") (hl : p.LiveInputID ≠ "") :
    ((api.GetStreamLiveInput p).2).map RequestCall.method = [HTTPMethod.post]
    ∧ ((api.ListStreamLiveInputVideos p).2).map RequestCall.method = [HTTPMethod.post] := by
  constructor <;>
    simp [API.GetStreamLiveInput, API.ListStreamLiveInputVideos, ha, hl]

/-- Witness for C4 at concrete well-formed parameters. -/
theorem c4_witness :
    ((failDecodeAPI.GetStreamLiveInput pRes).2).map RequestCall.method = [HTTPMethod.post]
    ∧ ((failDecodeAPI.ListStreamLiveInputVideos pRes).2).map RequestCall.method
      = [HTTPMethod.post] :=
  c4_get_and_listVideos_use_post failDecodeAPI pRes (by decide) (by decide)

/-- C6: for account `acct1` and live input `li1`, the URI passed to the
executor by `UpdateStreamLiveInput` and by `DeleteStreamLiveInput` is
exactly `/accounts/acct1/stream/live_inputs/li1`. -/
theorem c6_update_delete_uri (api : API)
    (pS : StreamLiveInputParameters) (hSa : pS.AccountID = "acct1") (hSl : pS.LiveInputID = "li1")
    (pU : UpdateStreamLiveInputParameters)
    (hUa : pU.AccountID = "acct1") (hUl : pU.LiveInputID = "li1") :
    ((api.UpdateStreamLiveInput pU).2).map RequestCall.uri
      = ["/accounts/acct1/stream/live_inputs/li1"]
    ∧ ((api.DeleteStreamLiveInput pS).2).map RequestCall.uri
      = ["/accounts/acct1/stream/live_inputs/li1"] := by
  constructor <;>
    simp [API.UpdateStreamLiveInput, API.DeleteStreamLiveInput, hSa, hSl, hUa, hUl]

/-- Witness for C6 at the concrete parameters of the claim. -/
theorem c6_witness :
    ((failDecodeAPI.UpdateStreamLiveInput pUpd).2).map RequestCall.uri
      = ["/accounts/acct1/stream/live_inputs/li1"]
    ∧ ((failDecodeAPI.DeleteStreamLiveInput pRes).2).map RequestCall.uri
      = ["/accounts/acct1/stream/live_inputs/li1"] :=
  c6_update_delete_uri failDecodeAPI pRes rfl rfl pUpd rfl rfl

/-- C5: for each of the five operations that decode a response body, if
the executor succeeds on the operation's request but the JSON codec fails
on the returned body, the operation returns exactly the decode error and
the zero struct (single-resource operations) or the empty sequence (list
operations).  (`DeleteStreamLiveInput` never decodes a body, so no decode
error can arise there.) -/
theorem c5_decode_failure_zero_result (api : API)
    (pL : ListStreamLiveInputsParameters) (hL : pL.AccountID ≠ "")
    (pC : CreateStreamLiveInputParameters) (hC : pC.AccountID ≠ "")
    (pS : StreamLiveInputParameters) (hSa : pS.AccountID ≠ "") (hSl : pS.LiveInputID ≠ "")
    (pU : UpdateStreamLiveInputParameters)
    (hUa : pU.AccountID ≠ "") (hUl : pU.LiveInputID ≠ "") :
    (∀ bs e, api.makeRequestContext HTTPMethod.get
        (api.buildURI ("/accounts/" ++ pL.AccountID ++ "/stream/live_inputs") pL) none
          = Except.ok bs →
      api.unmarshalStreamLiveInputsListResponse bs = Except.error e →
      (api.ListStreamLiveInputs pL).1 = (some [], some e))
    ∧ (∀ bs e, api.makeRequestContext HTTPMethod.post
        ("/accounts/" ++ pC.AccountID ++ "/stream/live_inputs")
        (some (RequestBody.createParams pC)) = Except.ok bs →
      api.unmarshalStreamLiveInputResponse bs = Except.error e →
      (api.CreateStreamLiveInput pC).1 = (StreamLiveInput.zero, some e))
    ∧ (∀ bs e, api.makeRequestContext HTTPMethod.post
        ("/accounts/" ++ pS.AccountID ++ "/stream/live_inputs/" ++ pS.LiveInputID)
        (some (RequestBody.liveInputParams pS)) = Except.ok bs →
      api.unmarshalStreamLiveInputResponse bs = Except.error e →
      (api.GetStreamLiveInput pS).1 = (StreamLiveInput.zero, some e))
    ∧ (∀ bs e, api.makeRequestContext HTTPMethod.put
        ("/accounts/" ++ pU.AccountID ++ "/stream/live_inputs/" ++ pU.LiveInputID)
        (some (RequestBody.updateParams pU)) = Except.ok bs →
      api.unmarshalStreamLiveInputResponse bs = Except.error e →
      (api.UpdateStreamLiveInput pU).1 = (StreamLiveInput.zero, some e))
    ∧ (∀ bs e, api.makeRequestContext HTTPMethod.post
        ("/accounts/" ++ pS.AccountID ++ "/stream/live_inputs/" ++
          pS.LiveInputID ++ "/videos")
        (some (RequestBody.liveInputParams pS)) = Except.ok bs →
      api.unmarshalStreamListResponse bs = Except.error e →
      (api.ListStreamLiveInputVideos pS).1 = (some [], some e)) := by
  refine ⟨?_, ?_, ?_, ?_, ?_⟩ <;> intro bs e h1 h2 <;>
    simp [API.ListStreamLiveInputs, API.CreateStreamLiveInput, API.GetStreamLiveInput,
      API.UpdateStreamLiveInput, API.ListStreamLiveInputVideos, hL, hC, hSa, hSl, hUa, hUl,
      h1, h2]

/-- Witness for C5: concrete collaborators whose executor succeeds with a
malformed body and whose codec fails on it. -/
theorem c5_witness :
    (failDecodeAPI.ListStreamLiveInputs pListAcct).1 = (some [], some decodeErr)
    ∧ (failDecodeAPI.CreateStreamLiveInput pCreateAcct).1 = (StreamLiveInput.zero, some decodeErr)
    ∧ (failDecodeAPI.GetStreamLiveInput pRes).1 = (StreamLiveInput.zero, some decodeErr)
    ∧ (failDecodeAPI.UpdateStreamLiveInput pUpd).1 = (StreamLiveInput.zero, some decodeErr)
    ∧ (failDecodeAPI.ListStreamLiveInputVideos pRes).1 = (some [], some decodeErr) := by
  obtain ⟨w1, w2, w3, w4, w5⟩ := c5_decode_failure_zero_result failDecodeAPI
    pListAcct (by decide) pCreateAcct (by decide) pRes (by decide) (by decide)
    pUpd (by decide) (by decide)
  exact ⟨w1 _ _ rfl rfl, w2 _ _ rfl rfl, w3 _ _ rfl rfl, w4 _ _ rfl rfl, w5 _ _ rfl rfl⟩

/-- C7: if the executor succeeds for `ListStreamLiveInputs` and the codec
decodes the body into an envelope whose `result` is the empty (present)
array, the operation returns the empty sequence and no error. -/
theorem c7_empty_result_array_ok (api : API) (p : ListStreamLiveInputsParameters)
    (hA : p.AccountID ≠ "") (bs : Bytes) (resp : StreamLiveInputsListResponse)
    (hexec : api.makeRequestContext HTTPMethod.get
      (api.buildURI ("/accounts/" ++ p.AccountID ++ "/stream/live_inputs") p) none
        = Except.ok bs)
    (hdec : api.unmarshalStreamLiveInputsListResponse bs = Except.ok resp)
    (hres : resp.Result = some []) :
    (api.ListStreamLiveInputs p).1 = (some [], none) := by
  simp [API.ListStreamLiveInputs, hA, hexec, hdec, hres]

/-- Witness for C7: concrete collaborators decoding every body into a
successful envelope with an empty `result` array. -/
theorem c7_witness : (okListAPI.ListStreamLiveInputs pListAcct).1 = (some [], none) :=
  c7_empty_result_array_ok okListAPI pListAcct (by decide) []
    { response := okResponse, Result := some [] } rfl rfl rfl

/-- C8: `DeleteStreamLiveInput` with well-formed identifiers performs
exactly one executor call, with HTTP method DELETE and the parameter
struct as body, and returns no error whenever the executor succeeds. -/
theorem c8_delete_method_body_success (api : API) (p : StreamLiveInputParameters)
    (ha : p.AccountID ≠ "") (hl : p.LiveInputID ≠ "") :
    (api.DeleteStreamLiveInput p).2
      = [{ method := HTTPMethod.delete,
           uri := "/accounts/" ++ p.AccountID ++ "/stream/live_inputs/" ++ p.LiveInputID,
           body := some (RequestBody.liveInputParams p) }]
    ∧ (∀ bs, api.makeRequestContext HTTPMethod.delete
          ("/accounts/" ++ p.AccountID ++ "/stream/live_inputs/" ++ p.LiveInputID)
          (some (RequestBody.liveInputParams p)) = Except.ok bs →
        (api.DeleteStreamLiveInput p).1 = none) := by
  refine ⟨?_, ?_⟩
  · simp [API.DeleteStreamLiveInput, ha, hl]
  · intro bs h
    simp [API.DeleteStreamLiveInput, ha, hl, h]

/-- Witness for C8 at concrete well-formed parameters and a succeeding
executor. -/
theorem c8_witness :
    (failDecodeAPI.DeleteStreamLiveInput pRes).2
      = [{ method := HTTPMethod.delete,
           uri := "/accounts/" ++ "acct1" ++ "/stream/live_inputs/" ++ "li1",
           body := some (RequestBody.liveInputParams pRes) }]
    ∧ (failDecodeAPI.DeleteStreamLiveInput pRes).1 = none := by
  obtain ⟨w1, w2⟩ := c8_delete_method_body_success failDecodeAPI pRes (by decide) (by decide)
  exact ⟨w1, w2 _ rfl⟩

/-- C10: `DeleteStreamLiveInput` never decodes the response body: for every
byte sequence the executor returns without error — malformed JSON
included — the operation returns no error. -/
theorem c10_delete_never_decodes (api : API) (p : StreamLiveInputParameters)
    (ha : p.AccountID ≠ "") (hl : p.LiveInputID ≠ "") (bs : Bytes)
    (hexec : api.makeRequestContext HTTPMethod.delete
      ("/accounts/" ++ p.AccountID ++ "/stream/live_inputs/" ++ p.LiveInputID)
      (some (RequestBody.liveInputParams p)) = Except.ok bs) :
    (api.DeleteStreamLiveInput p).1 = none := by
  simp [API.DeleteStreamLiveInput, ha, hl, hexec]

/-- Witness for C10: the executor returns the malformed body `[1, 2, 3]`
(undecodable by the codec of `failDecodeAPI`), and delete still returns no
error. -/
theorem c10_witness : (failDecodeAPI.DeleteStreamLiveInput pRes).1 = none :=
  c10_delete_never_decodes failDecodeAPI pRes (by decide) (by decide) [1, 2, 3] rfl

end Cloudflare
